import Mathlib

/-!
Shallow embedding of the NewsCleansing backend core
(`app/api/news/service.py` and `app/api/news/router.py`).

Conventions of the embedding:
* SQL rows are modelled by the fields the verified logic reads
  (for feed buckets, the article id and its computed label).
* Timestamps and civil dates are modelled as integers (KST civil day
  numbers, days since 1970-01-01 which is a Thursday).
* The SHA1 daily seed and the SQL `md5` ranking hash are opaque
  deterministic functions, passed as parameters.
* Python exceptions are modelled with `Except String`.
-/

namespace NewsClean

/-! ## Category classification

Embeds the `label_case` SQL expression of `get_home_feed`
(service.py lines 916-932) and the identical `label_expr` / `cat_norm`
pair of `get_user_field_stats` (lines 739-757):
identifier-prefix table first (`ILIKE` is case-insensitive), then the
raw-category alias table, then `COALESCE(a.category,'기타')`. -/

def DISPLAY_CATEGORIES : List String := ["경제", "정치", "사회", "문화", "세계", "과학"]

/-- ASCII lower-casing of one character (the case folding `ILIKE` and
`LOWER` perform on the ASCII identifiers involved here). -/
def lowerChar (c : Char) : Char :=
  if 65 ≤ c.toNat ∧ c.toNat ≤ 90 then Char.ofNat (c.toNat + 32) else c

def lowerStr (s : String) : String := ⟨s.data.map lowerChar⟩

def charsPrefix : List Char → List Char → Bool
  | [], _ => true
  | _ :: _, [] => false
  | a :: as, b :: bs => a = b && charsPrefix as bs

/-- `s ILIKE 'pat%'`: case-insensitive prefix match. -/
def ilikePrefix (pat : String) (s : String) : Bool :=
  charsPrefix (lowerStr pat).data (lowerStr s).data

/-- Lexicographic code-point order on strings (the collation the
embedding uses for SQL `ORDER BY` on text and Python `sorted`). -/
def charsLe : List Char → List Char → Bool
  | [], _ => true
  | _ :: _, [] => false
  | a :: as, b :: bs =>
    if a.toNat < b.toNat then true
    else if b.toNat < a.toNat then false
    else charsLe as bs

def strLe (s t : String) : Bool := charsLe s.data t.data

/-- `a.id ILIKE 'eco%'` etc.: case-insensitive prefix lookup on the id. -/
def idPrefixLabel (id : String) : Option String :=
  if ilikePrefix "eco" id then some "경제"
  else if ilikePrefix "pol" id then some "정치"
  else if ilikePrefix "soc" id then some "사회"
  else if ilikePrefix "lif" id then some "문화"
  else if ilikePrefix "sci" id then some "과학"
  else if ilikePrefix "int" id then some "세계"
  else none

/-- The raw-category alias arm (`cat_norm`), ending in
`ELSE COALESCE(a.category, '기타')`. -/
def cat_norm (category : Option String) : String :=
  match category with
  | some c =>
    if c = "문화" ∨ c = "생활/문화" then "문화"
    else if c = "과학" ∨ c = "IT/과학" ∨ c = "IT" then "과학"
    else if c = "국제" ∨ c = "세계" then "세계"
    else if c = "경제" then "경제"
    else if c = "정치" then "정치"
    else if c = "사회" then "사회"
    else c
  | none => "기타"

/-- The full `label_case` CASE expression: id prefix wins, else alias
normalisation, else the raw category passes through (`'기타'` only when
the stored category is NULL). -/
def label_case (id : String) (category : Option String) : String :=
  match idPrefixLabel id with
  | some lab => lab
  | none => cat_norm category

/-! ## Quota planning (service.py lines 892-896)

`limits[c] = 6 if rc >= 10 else (5 if rc >= 5 else 3)` over the six
display categories, and `max_limit = max(limits.values()) if limits else 6`. -/

def quotaOf (rc : Nat) : Nat :=
  if rc ≥ 10 then 6 else if rc ≥ 5 then 5 else 3

def limitsList (read_counts : String → Nat) : List (String × Nat) :=
  DISPLAY_CATEGORIES.map (fun c => (c, quotaOf (read_counts c)))

/-- `max(limits.values()) if limits else 6`; Python `max` of the
(nonempty) value list. -/
def max_limit (read_counts : String → Nat) : Nat :=
  let vals := (limitsList read_counts).map Prod.snd
  match vals with
  | [] => 6
  | v :: rest => rest.foldl max v

/-! ## Home feed assembly (service.py `get_home_feed`, lines 849-1067)

The SQL result sets are modelled as lists: a query with a
`ROW_NUMBER() OVER (PARTITION BY label ORDER BY k)` filter `rn <= n`
delivers the base rows sorted by `k` (a stable sort) with only the
first `n` rows of each label kept.  The SHA1 daily seed and the SQL
`md5` hash are opaque deterministic string functions, taken as
parameters. -/

/-- An `original_article` row reduced to the columns the feed logic
branches on: id, stored category, and the recency anchor
`COALESCE(published_at, scraped_at)` (a KST civil-day number, NULL when
both timestamps are NULL). -/
structure ArticleRow where
  id : String
  category : Option String
  anchor : Option Int
  deriving Repr, DecidableEq

/-- The store contents one feed request reads: the article table and
the requesting user's `article_reads` rows with
`opened_at >= now() - interval '1 day'` (one id per read event). -/
structure Snapshot where
  articles : List ArticleRow
  recentReads : List String
  deriving Repr, DecidableEq

/-- The label CASE of `counts_sql` (lines 859-887): prefix table first,
else the alias table, `ELSE NULL` (no pass-through); unlabelled reads
are dropped from the counts. -/
def countLabel (article_id : String) (category : Option String) : Option String :=
  match idPrefixLabel article_id with
  | some lab => some lab
  | none =>
    match category with
    | some c =>
      if c = "문화" ∨ c = "생활/문화" then some "문화"
      else if c = "과학" ∨ c = "IT/과학" ∨ c = "IT" then some "과학"
      else if c = "국제" ∨ c = "세계" then some "세계"
      else if c = "경제" then some "경제"
      else if c = "정치" then some "정치"
      else if c = "사회" then some "사회"
      else none
    | none => none

/-- `LEFT JOIN original_article a ON a.id = r.article_id`: the stored
category of a read article, NULL when the article row is absent. -/
def articleCategory (arts : List ArticleRow) (aid : String) : Option String :=
  match arts.find? (fun a => a.id = aid) with
  | some a => a.category
  | none => none

/-- Trailing-24h read count of one display category
(`counts_sql` + the zero-fill comprehension on line 890). -/
def read_counts (snap : Snapshot) (c : String) : Nat :=
  (snap.recentReads.filter
    (fun rid => countLabel rid (articleCategory snap.articles rid) = some c)).length

/-- `({label_case}) IN ('경제','정치','사회','문화','세계','과학')`. -/
def labelAllowed (lab : String) : Bool := DISPLAY_CATEGORIES.contains lab

/-- Stable insertion of `a` into a list ordered by the (total) Boolean
preorder `le`. -/
def insertLe (le : α → α → Bool) (a : α) : List α → List α
  | [] => [a]
  | b :: bs => if le a b then a :: b :: bs else b :: insertLe le a bs

/-- Stable sort by `le` (insertion sort; models an SQL ORDER BY). -/
def sortLe (le : α → α → Bool) : List α → List α
  | [] => []
  | a :: as => insertLe le a (sortLe le as)

/-- Keep, in order, only the first `maxN` rows of each label
(`ROW_NUMBER() OVER (PARTITION BY label ...) <= maxN`). -/
def takePerLabel (maxN : Nat) (rows : List (String × String)) : List (String × String) :=
  (rows.foldl
    (fun acc r =>
      let k := (acc.2.lookup r.2).getD 0
      (acc.1 ++ (if k < maxN then [r] else []), (r.2, k + 1) :: acc.2))
    (([] : List (String × String)), ([] : List (String × Nat)))).1

/-- The ranked rows of the phase-1/phase-2 query: base rows sorted by
`md5(id::text || seed)`, projected to `(id, label)`, `rn <= maxN`
per label. -/
def rankedRows (md5h : String → String) (seed : String) (maxN : Nat)
    (base : List ArticleRow) : List (String × String) :=
  takePerLabel maxN
    (((sortLe (fun a b => strLe (md5h (a.id ++ seed)) (md5h (b.id ++ seed))) base)).map
      (fun a => (a.id, label_case a.id a.category)))

/-- Phase-3 ordering: `ORDER BY ts DESC NULLS LAST, id DESC`. -/
def phase3Le (a b : ArticleRow) : Bool :=
  match a.anchor, b.anchor with
  | some x, some y => decide (y < x) || (decide (x = y) && strLe b.id a.id)
  | some _, none => true
  | none, some _ => false
  | none, none => strLe b.id a.id

/-- `bucket = {c: [] for c in DISPLAY_CATEGORIES}` and its operations. -/
abbrev Bucket := List (String × List String)

def emptyBucket : Bucket := DISPLAY_CATEGORIES.map (fun c => (c, []))

def bucketGet (b : Bucket) (c : String) : List String := (b.lookup c).getD []

/-- `bucket[c].append(aid)` (entry update keyed on `c`). -/
def bucketAppend (b : Bucket) (c : String) (aid : String) : Bucket :=
  b.map (fun p => (p.1, if p.1 = c then p.2 ++ [aid] else p.2))

/-- One iteration of a fill loop:
`if c in bucket and len(bucket[c]) < limits[c]: bucket[c].append(...)`.
There is no check that the id is already present. -/
def fillRow (limits : String → Nat) (b : Bucket) (row : String × String) : Bucket :=
  if (b.lookup row.2).isSome ∧ (bucketGet b row.2).length < limits row.2 then
    bucketAppend b row.2 row.1
  else b

def fillRows (limits : String → Nat) (b : Bucket) (rows : List (String × String)) : Bucket :=
  rows.foldl (fillRow limits) b

/-- `shortages()` (lines 982-983): the categories still short of quota
with their remaining need. -/
def shortages (limits : String → Nat) (b : Bucket) : List (String × Nat) :=
  (DISPLAY_CATEGORIES.filter (fun c => (bucketGet b c).length < limits c)).map
    (fun c => (c, limits c - (bucketGet b c).length))

/-- The three fill phases (lines 935-1047), producing the final bucket. -/
def feedPhases (md5h : String → String) (seed : String) (limits : String → Nat)
    (maxL : Nat) (today : Int) (exclude_read : Bool) (snap : Snapshot) : Bucket :=
  let recentOk : ArticleRow → Bool := fun a =>
    match a.anchor with
    | some t => decide (today - (60 : Int) ≤ t)
    | none => false
  let notRead : ArticleRow → Bool := fun a =>
    !exclude_read || !(snap.recentReads.contains a.id)
  let allowed : ArticleRow → Bool := fun a => labelAllowed (label_case a.id a.category)
  let base1 := snap.articles.filter (fun a => recentOk a && notRead a && allowed a)
  let b1 := fillRows limits emptyBucket (rankedRows md5h seed maxL base1)
  let b2 :=
    if shortages limits b1 = [] then b1
    else
      let base2 := snap.articles.filter (fun a => notRead a && allowed a)
      fillRows limits b1 (rankedRows md5h seed maxL base2)
  match (shortages limits b2).map Prod.snd with
  | [] => b2
  | n :: ns =>
    let max_need := ns.foldl max n
    let base3 := snap.articles.filter allowed
    let rows3 := takePerLabel max_need
      ((sortLe phase3Le base3).map (fun a => (a.id, label_case a.id a.category)))
    fillRows limits b2 rows3

structure FeedSection where
  category : String
  read_today : Nat
  limit : Nat
  pinned : Bool
  articles : List String
  deriving Repr, DecidableEq

structure HomeFeed where
  date : Int
  seed : String
  order_for_all : List String
  sections : List FeedSection
  deriving Repr, DecidableEq

/-- service.py lines 849-1067.  `sha1h` embeds
`_daily_seed(uid, today) = sha1(f"uid:date")[:8]` (line 95-96), `md5h`
the SQL `md5` hash; both are opaque deterministic functions of their
string argument.  Articles inside sections are reduced to their ids. -/
def get_home_feed (md5h sha1h : String → String) (uid : Nat) (today : Int)
    (exclude_read : Bool) (snap : Snapshot) : HomeFeed :=
  let seed := sha1h (toString uid ++ ":" ++ toString today)
  let rc : String → Nat := read_counts snap
  let limits : String → Nat := fun c => quotaOf (rc c)
  let maxL := max_limit rc
  let b := feedPhases md5h seed limits maxL today exclude_read snap
  let order_for_all :=
    sortLe (fun c1 c2 => decide (rc c2 < rc c1) || (decide (rc c1 = rc c2) && strLe c1 c2))
      DISPLAY_CATEGORIES
  { date := today
    seed := seed
    order_for_all := order_for_all
    sections := order_for_all.map (fun c =>
      { category := c
        read_today := rc c
        limit := limits c
        pinned := decide (3 < limits c)
        articles := bucketGet b c }) }

/-! ## Mood snapshot (service.py `get_user_mood_snapshot`, lines 1097-1172)

Events are rows of `user_events`; the aggregation reads, per event, the
KST civil day of its timestamp and the text of `meta->>'delta'`.
A day is an integer (days since 1970-01-01, a Thursday). -/

def BASELINE_STRESS : Int := 50

structure MoodEvent where
  day : Int
  event_type : String
  delta : Option String
  deriving Repr, DecidableEq

def isDigitCh (c : Char) : Bool := 48 ≤ c.toNat && c.toNat ≤ 57

/-- Split a character list at every `'.'` (keeping empty chunks), the
shape test the regex performs. -/
def splitDot : List Char → List Char → List (List Char)
  | [], acc => [acc.reverse]
  | c :: cs, acc =>
    if c = '.' then acc.reverse :: splitDot cs [] else splitDot cs (c :: acc)

/-- The Postgres regex `^-?[0-9]+(\.[0-9]+)?$` applied to a string. -/
def numericShape (s : String) : Bool :=
  let t := match s.data with
    | '-' :: rest => rest
    | cs => cs
  match splitDot t [] with
  | [a] => !a.isEmpty && a.all isDigitCh
  | [a, b] => (!a.isEmpty && a.all isDigitCh) && (!b.isEmpty && b.all isDigitCh)
  | _ => false

def natOfDigits (cs : List Char) : Nat :=
  cs.foldl (fun n c => n * 10 + (c.toNat - 48)) 0

/-- Value of `CAST(t AS NUMERIC)` for a string of numeric shape
(0 otherwise, a value never used on that branch). -/
def numericValue (s : String) : Rat :=
  let neg := match s.data with
    | '-' :: _ => true
    | _ => false
  let t := match s.data with
    | '-' :: rest => rest
    | cs => cs
  let v : Rat :=
    match splitDot t [] with
    | [a] => ((natOfDigits a : Int) : Rat)
    | [a, b] =>
      mkRat ((natOfDigits a : Int) * (10 : Int) ^ b.length + (natOfDigits b : Int))
        ((10 : Nat) ^ b.length)
    | _ => 0
  if neg then -v else v

/-- One event's contribution to `sum_delta`:
`CASE WHEN delta_text ~ '^-?[0-9]+(\.[0-9]+)?$' THEN CAST(...) ELSE 0.0 END`;
a NULL `delta_text` (absent field) falls to the ELSE branch. -/
def deltaContribution (delta : Option String) : Rat :=
  match delta with
  | none => 0
  | some t => if numericShape t then numericValue t else 0

/-- Python 3 `round` on an exact value: round half to even. -/
def pyRound (q : Rat) : Int :=
  let f := ⌊q⌋
  let r := q - (f : Rat)
  if r < 1/2 then f
  else if r > 1/2 then f + 1
  else if Even f then f else f + 1

/-- The grouped query: sum of the parsed deltas of this user's
mood/stress_delta events whose KST civil day is `d`
(the `m` dictionary lookup, with `0.0` default). -/
def daySum (events : List MoodEvent) (d : Int) : Rat :=
  ((events.filter
      (fun e => (e.event_type = "mood" || e.event_type = "stress_delta") && e.day = d)).map
    (fun e => deltaContribution e.delta)).sum

structure WeekBin where
  dow : Nat
  avg : Option Int
  cnt : Nat
  deriving Repr, DecidableEq

structure MoodSnapshot where
  date : Int
  score : Int
  emoji : String
  word : String
  days : List (Int × Int)
  week : List WeekBin
  baseline : Int
  deriving Repr, DecidableEq

/-- Python `date.weekday()` (Monday = 0) for an epoch day number;
1970-01-01 is a Thursday. -/
def weekdayOf (d : Int) : Nat := ((d + 3) % 7).toNat

/-- service.py lines 1097-1172.  `days_arg` is the caller-supplied window
size; the first line of the body is `days = 7`.  `today` is the KST
civil day of `now`. -/
def get_user_mood_snapshot (events : List MoodEvent) (today : Int)
    (days_arg : Nat) : MoodSnapshot :=
  let days := 7
  let days_list : List (Int × Int) :=
    (((List.range days).map (fun i => today - (i : Int))).reverse).map
      (fun d => (d, pyRound (BASELINE_STRESS + daySum events d)))
  let today_score : Int :=
    match days_list.getLast? with
    | some p => p.2
    | none => BASELINE_STRESS
  let ew : String × String :=
    if today_score ≤ 20 then ("😌", "매우 안정")
    else if today_score ≤ 40 then ("😊", "안정")
    else if today_score ≤ 60 then ("🙂", "평온")
    else if today_score ≤ 80 then ("😟", "긴장")
    else ("😣", "불안")
  let bins : List (Nat × Int × Nat) :=
    days_list.foldl
      (fun acc p =>
        let dow := (weekdayOf p.1 + 1) % 7
        acc.map (fun b => if b.1 = dow then (b.1, b.2.1 + p.2, b.2.2 + 1) else b))
      ((List.range 7).map (fun i => (i, (0 : Int), (0 : Nat))))
  let week := bins.map (fun b =>
    { dow := b.1
      avg := if b.2.2 ≠ 0 then some (pyRound ((b.2.1 : Rat) / (b.2.2 : Rat))) else none
      cnt := b.2.2 })
  { date := today
    score := today_score
    emoji := ew.1
    word := ew.2
    days := days_list
    week := week
    baseline := BASELINE_STRESS }

/-! ## Recommendation-payload normalization
(router.py `_attach_attitudes_per_item`, lines 51-125)

Payloads are JSON-like values.  Python exceptions (the `TypeError` of
`dict(it)` on a non-mapping element, the `TypeError` of an unhashable
`aid in attitude_map` test) are modelled with `Except String`. -/

inductive JVal where
  | null
  | jbool (b : Bool)
  | jnum (n : Int)
  | jstr (s : String)
  | jarr (xs : List JVal)
  | jobj (fields : List (String × JVal))

/-- Python truthiness of a JSON value. -/
def jTruthy : JVal → Bool
  | .null => false
  | .jbool b => b
  | .jnum n => n != 0
  | .jstr s => s != ""
  | .jarr xs => !xs.isEmpty
  | .jobj fs => !fs.isEmpty

/-- `container.get(key)` on a dict. -/
def jget (fs : List (String × JVal)) (k : String) : Option JVal := fs.lookup k

/-- `d[key] = v` on a dict: overwrite in place, else append. -/
def jsetField (fs : List (String × JVal)) (k : String) (v : JVal) :
    List (String × JVal) :=
  if (fs.lookup k).isSome then fs.map (fun p => (p.1, if p.1 = k then v else p.2))
  else fs ++ [(k, v)]

/-- Where `locate_array` found the target array. -/
inductive ArrLoc where
  | root (xs : List JVal)
  | top (key : String) (xs : List JVal)
  | nested (key : String) (xs : List JVal)

def PRIMARY_KEYS : List String :=
  ["recommendations", "related_topics", "similar_articles", "articles", "items"]

def NESTED_KEYS : List String := ["recommendations", "related_topics"]

/-- First key of `ks` whose value in the dict is an array. -/
def firstTopHit (fs : List (String × JVal)) : List String → Option (String × List JVal)
  | [] => none
  | k :: ks =>
    match jget fs k with
    | some (.jarr xs) => some (k, xs)
    | _ => firstTopHit fs ks

/-- First key of `ks` with one level of same-key self-nesting
(`payload[key][key]` an array). -/
def firstNestedHit (fs : List (String × JVal)) : List String → Option (String × List JVal)
  | [] => none
  | k :: ks =>
    match jget fs k with
    | some (.jobj inner) =>
      match jget inner k with
      | some (.jarr xs) => some (k, xs)
      | _ => firstNestedHit fs ks
    | _ => firstNestedHit fs ks

/-- `locate_array(container)` (router.py lines 62-82). -/
def locate_array : JVal → Option ArrLoc
  | .jarr xs => some (.root xs)
  | .jobj fs =>
    match firstTopHit fs PRIMARY_KEYS with
    | some (k, xs) => some (.top k xs)
    | none =>
      match firstNestedHit fs NESTED_KEYS with
      | some (k, xs) => some (.nested k xs)
      | none => none
  | _ => none

def locatedArr : ArrLoc → List JVal
  | .root xs => xs
  | .top _ xs => xs
  | .nested _ xs => xs

/-- One element of the target array:
`obj = {"article_id": it} if isinstance(it, str) else dict(it)`.
`dict(it)` raises `TypeError`/`ValueError` on anything that is not a
mapping; for JSON inputs the only other succeeding argument shape, an
array of two-element `[string, value]` pairs, is exotic enough that the
embedding folds it into the error branch as well. -/
def normElem : JVal → Except String JVal
  | .jstr s => .ok (.jobj [("article_id", .jstr s)])
  | .jobj fs => .ok (.jobj fs)
  | _ => .error "TypeError: element is not a mapping"

/-- Sequential effectful map: the Python `for` loop, first exception
propagating. -/
def mapME (f : α → Except ε β) : List α → Except ε (List β)
  | [] => .ok []
  | x :: xs =>
    match f x with
    | .error e => .error e
    | .ok y =>
      match mapME f xs with
      | .error e => .error e
      | .ok ys => .ok (y :: ys)

/-- `aid = obj.get("article_id") or obj.get("id")` (Python `or`:
a falsy `article_id` falls through to `id`; a missing key is `None`). -/
def firstIdVal (fs : List (String × JVal)) : JVal :=
  let a := (jget fs "article_id").getD .null
  if jTruthy a then a else (jget fs "id").getD .null

/-- Ids collected during normalization: only `isinstance(aid, str)`. -/
def collectIds (objs : List JVal) : List String :=
  objs.foldr
    (fun o acc =>
      match o with
      | .jobj fs =>
        match firstIdVal fs with
        | .jstr s => s :: acc
        | _ => acc
      | _ => acc)
    []

/-- The per-id `service.get_article` probe of lines 103-111: a lookup
failure (exception or missing article) is swallowed and the id simply
left out of the map. -/
def attitudeMap (lk : String → Option (JVal × JVal)) (ids : List String) :
    List (String × (JVal × JVal)) :=
  ids.foldr
    (fun aid acc =>
      match lk aid with
      | some v => (aid, v) :: acc
      | none => acc)
    []

def hashable : JVal → Bool
  | .jarr _ => false
  | .jobj _ => false
  | _ => true

/-- Injection loop (lines 114-119): `if aid and aid in attitude_map`;
an unhashable `aid` makes the membership test raise. -/
def injectElem (amap : List (String × (JVal × JVal))) : JVal → Except String JVal
  | .jobj fs =>
    let aid := firstIdVal fs
    if jTruthy aid = false then .ok (.jobj fs)
    else if hashable aid = false then .error "TypeError: unhashable type"
    else
      match aid with
      | .jstr s =>
        match amap.lookup s with
        | some av =>
          .ok (.jobj (jsetField (jsetField fs "attitude" av.1) "attitude_confidence" av.2))
        | none => .ok (.jobj fs)
      | _ => .ok (.jobj fs)
  | v => .ok v

/-- Write the normalized array back at the location `locate_array`
found (lines 121-125): mutating `parent[key]` in place preserves every
sibling key. -/
def reassemble (items : JVal) (loc : ArrLoc) (injected : List JVal) : JVal :=
  match loc, items with
  | .root _, _ => .jarr injected
  | .top k _, .jobj fs => .jobj (jsetField fs k (.jarr injected))
  | .nested k _, .jobj fs =>
    match jget fs k with
    | some (.jobj inner) => .jobj (jsetField fs k (.jobj (jsetField inner k (.jarr injected))))
    | _ => items
  | _, _ => items

/-- router.py lines 51-125.  `lk` abstracts the per-id DB probe. -/
def attach_attitudes_per_item (lk : String → Option (JVal × JVal)) (items : JVal) :
    Except String JVal :=
  match locate_array items with
  | none => .ok items
  | some loc =>
    match mapME normElem (locatedArr loc) with
    | .error e => .error e
    | .ok normalized =>
      let amap := attitudeMap lk (collectIds normalized)
      match mapME (injectElem amap) normalized with
      | .error e => .error e
      | .ok injected => .ok (reassemble items loc injected)

/-! ## Article detail and the two detail endpoints
(service.py `get_article` lines 279-398, router.py `get_news` lines
149-158 and `get_news_complete` lines 169-201)

`store` maps an article id to the joined detail row, already assembled
into the response dict (service.py lines 382-398); when the id is
absent `get_article` raises `KeyError("article not found")`. -/

def get_article (store : String → Option JVal) (aid : String) : Except String JVal :=
  match store aid with
  | some row => .ok row
  | none => .error "article not found"

inductive HttpResponse where
  | ok (body : JVal)
  | httpError (status : Nat) (detail : String)

/-- `GET /news/{article_id}`: the `try/except Exception` turns any
`get_article` exception into a 500; the 404 branch fires only on a
falsy `item`. -/
def get_news (store : String → Option JVal) (aid : String) : HttpResponse :=
  match get_article store aid with
  | .error e => .httpError 500 ("failed to load article: " ++ e)
  | .ok item =>
    if jTruthy item = false then .httpError 404 "article not found"
    else .ok item

/-- `GET /news/{article_id}/complete`: same guarded article fetch, then
attitude injection into the two (never-failing, already fetched)
recommendation payloads; an exception escaping
`_attach_attitudes_per_item` is an unhandled 500. -/
def get_news_complete (store : String → Option JVal)
    (lk : String → Option (JVal × JVal)) (raw_similar raw_topics : JVal)
    (aid : String) : HttpResponse :=
  match get_article store aid with
  | .error e => .httpError 500 ("failed to load article: " ++ e)
  | .ok item =>
    if jTruthy item = false then .httpError 404 "article not found"
    else
      match attach_attitudes_per_item lk raw_similar with
      | .error e => .httpError 500 e
      | .ok sim =>
        match attach_attitudes_per_item lk raw_topics with
        | .error e => .httpError 500 e
        | .ok top =>
          .ok (.jobj [("article", item),
                      ("recommendations", .jobj [("similar", sim), ("topics", top)])])

/-! ## Read-session close
(service.py `close_read` lines 534-565, router.py `close_article`
lines 232-250) -/

/-- An `article_reads` row. -/
structure ReadRow where
  id : Nat
  user_id : Nat
  article_id : String
  opened_at : Option Int
  closed_at : Option Int
  dwell_seconds : Option Int
  deriving Repr, DecidableEq

/-- service.py lines 534-565: select the row by (id, user, article);
absent → return -1; otherwise unconditionally set `closed_at := now`
and `dwell_seconds := max 0 (now - opened_at)` (there is no check of a
previous `closed_at`).  Returns the updated table and the returned
dwell value. -/
def close_read (rows : List ReadRow) (article_id : String) (user_id : Nat)
    (read_id : Nat) (now : Int) : List ReadRow × Int :=
  match rows.find?
      (fun r => r.id = read_id && r.user_id = user_id && r.article_id = article_id) with
  | none => (rows, -1)
  | some row =>
    let opened := row.opened_at.getD now
    let dwell : Int := max 0 (now - opened)
    (rows.map (fun r =>
        if r.id = row.id then { r with closed_at := some now, dwell_seconds := some dwell }
        else r),
     dwell)

/-- router.py lines 232-250: `dwell < 0` → 404, else a success body. -/
def close_article (rows : List ReadRow) (article_id : String) (user_id : Nat)
    (read_id : Nat) (now : Int) : HttpResponse :=
  let res := close_read rows article_id user_id read_id now
  if res.2 < 0 then .httpError 404 "read session not found"
  else .ok (.jobj [("ok", .jbool true), ("article_id", .jstr article_id),
                   ("dwell_seconds", .jnum res.2)])

/-! ## Auxiliary predicates and fixtures used by the statements -/

/-- Every category bucket holds at most its quota. -/
def bucketBounded (limits : String → Nat) (b : Bucket) : Prop :=
  ∀ c, (bucketGet b c).length ≤ limits c

/-- Array elements on which the normalizer provably cannot raise: bare
string ids, and records whose discovered id value is hashable. -/
def safeElem : JVal → Bool
  | .jstr _ => true
  | .jobj fs => hashable (firstIdVal fs)
  | _ => false

/-- Post-normalization safety: what `normElem` outputs satisfy. -/
def safeNormed : JVal → Bool
  | .jobj fs => hashable (firstIdVal fs)
  | _ => true

/-- Whether a mood event's delta text parses under the SQL regex. -/
def parseableDelta (e : MoodEvent) : Bool :=
  match e.delta with
  | some t => numericShape t
  | none => false

/-- Store snapshot exhibiting the phase-2 duplicate: two fresh economy
articles and one stale one, no recent reads. -/
def snapDup : Snapshot :=
  { articles :=
      [ { id := "eco1", category := some "경제", anchor := some 100 }
      , { id := "eco2", category := some "경제", anchor := some 100 }
      , { id := "eco3", category := some "경제", anchor := some 1 } ]
    recentReads := [] }

/-! ## Helper lemmas -/

theorem lookup_map_keyed {β : Type} (g : String → β → β) (b : List (String × β))
    (c : String) :
    (b.map (fun p => (p.1, g p.1 p.2))).lookup c = (b.lookup c).map (g c) := by
  induction b with
  | nil => rfl
  | cons p rest ih =>
    by_cases h : c = p.1
    · simp [List.lookup, h]
    · have hb : (c == p.1) = false := beq_eq_false_iff_ne.mpr h
      simp [List.lookup, hb, ih]

theorem foldl_max_self (l : List Nat) (v : Nat) :
    l.foldl max v = v ∨ l.foldl max v ∈ l := by
  induction l generalizing v with
  | nil => exact Or.inl rfl
  | cons x xs ih =>
    rcases ih (max v x) with h | h
    · rcases Nat.le_total v x with hle | hle
      · right
        simp only [List.foldl_cons] at *
        rw [h, Nat.max_eq_right hle]
        exact List.mem_cons_self _ _
      · left
        simp only [List.foldl_cons] at *
        rw [h, Nat.max_eq_left hle]
    · right
      simp only [List.foldl_cons] at *
      exact List.mem_cons_of_mem _ h

theorem le_foldl_max (l : List Nat) (v : Nat) :
    v ≤ l.foldl max v ∧ ∀ x ∈ l, x ≤ l.foldl max v := by
  induction l generalizing v with
  | nil => exact ⟨Nat.le_refl v, by intro x hx; cases hx⟩
  | cons y ys ih =>
    obtain ⟨h1, h2⟩ := ih (max v y)
    refine ⟨Nat.le_trans (Nat.le_max_left v y) h1, ?_⟩
    intro x hx
    rcases List.mem_cons.mp hx with rfl | hx
    · exact Nat.le_trans (Nat.le_max_right v x) h1
    · exact h2 x hx

theorem bucketGet_empty_aux (cats : List String) (c : String) :
    ((cats.map (fun c0 => (c0, ([] : List String)))).lookup c).getD [] = [] := by
  induction cats with
  | nil => rfl
  | cons x xs ih =>
    by_cases h : c = x
    · simp [List.lookup, h]
    · have hb : (c == x) = false := beq_eq_false_iff_ne.mpr h
      simp [List.lookup, hb, ih]

theorem emptyBucket_bounded (limits : String → Nat) :
    bucketBounded limits emptyBucket := by
  intro c
  simp only [bucketGet, emptyBucket]
  rw [bucketGet_empty_aux]
  exact Nat.zero_le _

theorem fillRow_bounded (limits : String → Nat) (b : Bucket) (row : String × String)
    (h : bucketBounded limits b) : bucketBounded limits (fillRow limits b row) := by
  intro c
  unfold fillRow
  split
  case isTrue hcond =>
    obtain ⟨hsome, hlen⟩ := hcond
    simp only [bucketGet, bucketAppend]
    rw [lookup_map_keyed (fun k v => if k = row.2 then v ++ [row.1] else v)]
    cases hl : b.lookup c with
    | none => simp
    | some v =>
      have hv : bucketGet b c = v := by simp [bucketGet, hl]
      by_cases hc : c = row.2
      · subst hc
        rw [hv] at hlen
        simp only [Option.map_some', Option.getD_some]
        simp only [if_true, List.length_append, List.length_cons, List.length_nil]
        omega
      · simp only [Option.map_some', Option.getD_some, if_neg hc]
        have := h c
        rw [hv] at this
        exact this
  case isFalse => exact h c

theorem fillRows_bounded (limits : String → Nat) (rows : List (String × String)) :
    ∀ b, bucketBounded limits b → bucketBounded limits (fillRows limits b rows) := by
  induction rows with
  | nil => intro b h; exact h
  | cons r rs ih => intro b h; exact ih _ (fillRow_bounded limits b r h)

theorem feedPhases_bounded (md5h : String → String) (seed : String)
    (limits : String → Nat) (maxL : Nat) (today : Int) (ex : Bool) (snap : Snapshot) :
    bucketBounded limits (feedPhases md5h seed limits maxL today ex snap) := by
  simp only [feedPhases]
  split
  · split
    · exact fillRows_bounded _ _ _ (emptyBucket_bounded _)
    · exact fillRows_bounded _ _ _ (fillRows_bounded _ _ _ (emptyBucket_bounded _))
  · apply fillRows_bounded
    split
    · exact fillRows_bounded _ _ _ (emptyBucket_bounded _)
    · exact fillRows_bounded _ _ _ (fillRows_bounded _ _ _ (emptyBucket_bounded _))

theorem snapshot_days_eq (events : List MoodEvent) (today : Int) (n : Nat) :
    (get_user_mood_snapshot events today n).days =
      (List.range 7).map (fun j => (today - 6 + (j : Int),
        pyRound ((BASELINE_STRESS : Rat) + daySum events (today - 6 + (j : Int))))) := by
  have h7 : List.range 7 = [0, 1, 2, 3, 4, 5, 6] := rfl
  simp only [get_user_mood_snapshot, h7, List.map_cons, List.map_nil, List.reverse_cons,
    List.reverse_nil, List.nil_append, List.cons_append, List.append_nil]
  norm_num
  refine ⟨⟨?_, ?_⟩, ⟨?_, ?_⟩, ⟨?_, ?_⟩, ⟨?_, ?_⟩, ?_, ?_⟩ <;>
    first
      | omega
      | (congr 3 <;> omega)

theorem snapshot_score_eq (events : List MoodEvent) (today : Int) (n : Nat) :
    (get_user_mood_snapshot events today n).score =
      pyRound ((BASELINE_STRESS : Rat) + daySum events today) := by
  have h7 : List.range 7 = [0, 1, 2, 3, 4, 5, 6] := rfl
  simp only [get_user_mood_snapshot, h7, List.map_cons, List.map_nil, List.reverse_cons,
    List.reverse_nil, List.nil_append, List.cons_append, List.append_nil, List.getLast?]
  norm_num

theorem daySum_single_six (today : Int) :
    daySum [{ day := today, event_type := "mood", delta := some "6" }] today = 6 := by
  simp [daySum]
  rw [show deltaContribution (some "6") = 6 from rfl]

theorem sum_filter_zero {α : Type} (f : α → Rat) (τ π : α → Bool)
    (h0 : ∀ x, π x = false → f x = 0) (l : List α) :
    ((l.filter τ).map f).sum = (((l.filter π).filter τ).map f).sum := by
  induction l with
  | nil => rfl
  | cons x xs ih =>
    by_cases hp : π x = true
    · by_cases ht : τ x = true
      · simp [List.filter_cons, hp, ht, ih]
      · simp [List.filter_cons, hp, ht, ih]
    · have hp' : π x = false := by simpa using hp
      by_cases ht : τ x = true
      · simp [List.filter_cons, ht, hp', h0 x hp', ih]
      · simp [List.filter_cons, ht, hp', ih]

theorem normElem_safe (x : JVal) (hx : safeElem x = true) :
    ∃ y, normElem x = .ok y ∧ safeNormed y = true := by
  cases x with
  | jstr s =>
    refine ⟨.jobj [("article_id", .jstr s)], rfl, ?_⟩
    by_cases h : s = ""
    · subst h; rfl
    · have hb : (s == "") = false := beq_eq_false_iff_ne.mpr h
      simp [safeNormed, firstIdVal, jget, List.lookup, jTruthy, hb, hashable, h]
  | jobj fs => exact ⟨.jobj fs, rfl, hx⟩
  | null => simp [safeElem] at hx
  | jbool b => simp [safeElem] at hx
  | jnum n => simp [safeElem] at hx
  | jarr xs => simp [safeElem] at hx

theorem mapME_norm_ok (xs : List JVal) (h : ∀ x ∈ xs, safeElem x = true) :
    ∃ ys, mapME normElem xs = .ok ys ∧ ∀ y ∈ ys, safeNormed y = true := by
  induction xs with
  | nil => exact ⟨[], rfl, by intro y hy; cases hy⟩
  | cons x xs ih =>
    obtain ⟨y, hy, hys⟩ := normElem_safe x (h x (List.mem_cons_self x xs))
    obtain ⟨ys, hmap, hall⟩ := ih (fun z hz => h z (List.mem_cons_of_mem x hz))
    refine ⟨y :: ys, ?_, ?_⟩
    · simp [mapME, hy, hmap]
    · intro z hz
      rcases List.mem_cons.mp hz with rfl | hz
      · exact hys
      · exact hall z hz

theorem injectElem_ok (amap : List (String × (JVal × JVal))) (y : JVal)
    (hy : safeNormed y = true) : ∃ z, injectElem amap y = .ok z := by
  cases y with
  | jobj fs =>
    have hy' : hashable (firstIdVal fs) = true := hy
    simp only [injectElem]
    split
    · exact ⟨_, rfl⟩
    · split
      · rename_i h1 h2
        rw [h2] at hy'
        cases hy'
      · split
        · rename_i s hs
          cases hl : amap.lookup s
          · exact ⟨_, rfl⟩
          · exact ⟨_, rfl⟩
        · exact ⟨_, rfl⟩
  | null => exact ⟨_, rfl⟩
  | jbool b => exact ⟨_, rfl⟩
  | jnum n => exact ⟨_, rfl⟩
  | jstr s => exact ⟨_, rfl⟩
  | jarr xs => exact ⟨_, rfl⟩

theorem mapME_inject_ok (amap : List (String × (JVal × JVal))) (ys : List JVal)
    (h : ∀ y ∈ ys, safeNormed y = true) :
    ∃ zs, mapME (injectElem amap) ys = .ok zs := by
  induction ys with
  | nil => exact ⟨[], rfl⟩
  | cons y ys ih =>
    obtain ⟨z, hz⟩ := injectElem_ok amap y (h y (List.mem_cons_self y ys))
    obtain ⟨zs, hzs⟩ := ih (fun w hw => h w (List.mem_cons_of_mem y hw))
    exact ⟨z :: zs, by simp [mapME, hz, hzs]⟩

theorem lookup_append_not_last {β : Type} (fs : List (String × β)) (k k' : String)
    (v : β) (h : k' ≠ k) : (fs ++ [(k, v)]).lookup k' = fs.lookup k' := by
  induction fs with
  | nil => simp [List.lookup, beq_eq_false_iff_ne.mpr h]
  | cons p rest ih =>
    by_cases hp : k' = p.1
    · simp [List.lookup, hp]
    · have hb : (k' == p.1) = false := beq_eq_false_iff_ne.mpr hp
      simp [List.lookup, hb, ih]

/-! ## Claim theorems -/

/-- Claim C1, counterexample to the claim as stated: on a concrete
snapshot (two fresh economy articles, one stale one, no recent reads,
all quotas 3) phase 1 puts `eco1, eco2` into the economy bucket and
phase 2, whose candidate set contains the phase-1 articles again and
whose fill loop checks only the quota, appends `eco1` a second time:
the economy section ends as `[eco1, eco2, eco1]`, which is not
duplicate-free. -/
theorem c1_counterexample :
    ((get_home_feed (fun s => s) (fun _ => "") 1 100 true snapDup).sections.map
        (fun s => s.articles)).head? = some ["eco1", "eco2", "eco1"]
    ∧ ¬ (["eco1", "eco2", "eco1"] : List String).Nodup := ⟨by decide, by decide⟩

/-- Claim C1, amended: for every user, date, exclude_read flag and
snapshot, each fill phase appends to a category's bucket only while it
is below its quota, so every section of the assembled home feed holds
at most its quota of articles; the fill loops do not test for ids
already present, so this bound (not id-distinctness) is the invariant
the three phases maintain. -/
theorem c1_fill_quota_bound (md5h sha1h : String → String) (uid : Nat) (today : Int)
    (exclude_read : Bool) (snap : Snapshot) :
    ∀ s ∈ (get_home_feed md5h sha1h uid today exclude_read snap).sections,
      s.articles.length ≤ s.limit := by
  intro s hs
  simp only [get_home_feed] at hs
  rw [List.mem_map] at hs
  obtain ⟨c, hc, rfl⟩ := hs
  exact feedPhases_bounded _ _ _ _ _ _ _ c

/-- Witness for the amended C1 theorem at the concrete snapshot. -/
theorem c1_fill_quota_bound_witness :
    (⟨"경제", 0, 3, false, ["eco1", "eco2", "eco1"]⟩ : FeedSection) ∈
        (get_home_feed (fun s => s) (fun _ => "") 1 100 true snapDup).sections
    ∧ (["eco1", "eco2", "eco1"] : List String).length ≤ 3 :=
  ⟨by decide, c1_fill_quota_bound (fun s => s) (fun _ => "") 1 100 true snapDup
      ⟨"경제", 0, 3, false, ["eco1", "eco2", "eco1"]⟩ (by decide)⟩

/-- Claim C2: the home feed is deterministic — for a fixed md5/sha1
hash pair, user id, civil date, exclude_read flag and store snapshot,
two invocations agree on the whole response and in particular on the
seed, on `order_for_all`, and on every section's article list. -/
theorem c2_home_feed_deterministic (md5h sha1h : String → String) (uid : Nat)
    (today : Int) (exclude_read : Bool) (snap1 snap2 : Snapshot) (h : snap1 = snap2) :
    get_home_feed md5h sha1h uid today exclude_read snap1 =
      get_home_feed md5h sha1h uid today exclude_read snap2
    ∧ (get_home_feed md5h sha1h uid today exclude_read snap1).seed =
        (get_home_feed md5h sha1h uid today exclude_read snap2).seed
    ∧ (get_home_feed md5h sha1h uid today exclude_read snap1).order_for_all =
        (get_home_feed md5h sha1h uid today exclude_read snap2).order_for_all
    ∧ (get_home_feed md5h sha1h uid today exclude_read snap1).sections =
        (get_home_feed md5h sha1h uid today exclude_read snap2).sections := by
  subst h
  exact ⟨rfl, rfl, rfl, rfl⟩

/-- Witness for C2 at a concrete input. -/
theorem c2_home_feed_deterministic_witness :
    get_home_feed (fun s => s) (fun _ => "s") 2 50 false
        { articles := [{ id := "pol9", category := none, anchor := some 50 }],
          recentReads := ["pol9"] } =
      get_home_feed (fun s => s) (fun _ => "s") 2 50 false
        { articles := [{ id := "pol9", category := none, anchor := some 50 }],
          recentReads := ["pol9"] }
    ∧ (get_home_feed (fun s => s) (fun _ => "s") 2 50 false
        { articles := [{ id := "pol9", category := none, anchor := some 50 }],
          recentReads := ["pol9"] }).seed =
      (get_home_feed (fun s => s) (fun _ => "s") 2 50 false
        { articles := [{ id := "pol9", category := none, anchor := some 50 }],
          recentReads := ["pol9"] }).seed
    ∧ (get_home_feed (fun s => s) (fun _ => "s") 2 50 false
        { articles := [{ id := "pol9", category := none, anchor := some 50 }],
          recentReads := ["pol9"] }).order_for_all =
      (get_home_feed (fun s => s) (fun _ => "s") 2 50 false
        { articles := [{ id := "pol9", category := none, anchor := some 50 }],
          recentReads := ["pol9"] }).order_for_all
    ∧ (get_home_feed (fun s => s) (fun _ => "s") 2 50 false
        { articles := [{ id := "pol9", category := none, anchor := some 50 }],
          recentReads := ["pol9"] }).sections =
      (get_home_feed (fun s => s) (fun _ => "s") 2 50 false
        { articles := [{ id := "pol9", category := none, anchor := some 50 }],
          recentReads := ["pol9"] }).sections :=
  c2_home_feed_deterministic (fun s => s) (fun _ => "s") 2 50 false
    { articles := [{ id := "pol9", category := none, anchor := some 50 }],
      recentReads := ["pol9"] }
    { articles := [{ id := "pol9", category := none, anchor := some 50 }],
      recentReads := ["pol9"] } rfl

/-- Claim C3: for every canonical category the planned quota is 6 when
the trailing-24h read count is at least 10, 5 when it is at least 5 and
below 10, and 3 otherwise; and `max_limit` is exactly the maximum of
the six per-category quotas (it is one of them and bounds them all). -/
theorem c3_quota_rule (rc : String → Nat) (c : String) (hc : c ∈ DISPLAY_CATEGORIES) :
    (limitsList rc).lookup c =
      some (if 10 ≤ rc c then 6 else if 5 ≤ rc c then 5 else 3)
    ∧ max_limit rc ∈ (limitsList rc).map Prod.snd
    ∧ ∀ v ∈ (limitsList rc).map Prod.snd, v ≤ max_limit rc := by
  refine ⟨?_, ?_, ?_⟩
  · fin_cases hc <;> simp [limitsList, DISPLAY_CATEGORIES, List.lookup, quotaOf]
  · unfold max_limit limitsList
    simp only [DISPLAY_CATEGORIES, List.map_cons, List.map_nil]
    rcases foldl_max_self
        [quotaOf (rc "정치"), quotaOf (rc "사회"), quotaOf (rc "문화"),
         quotaOf (rc "세계"), quotaOf (rc "과학")] (quotaOf (rc "경제")) with h | h
    · rw [h]; simp
    · simp only [List.mem_cons, List.not_mem_nil, or_false] at h
      rcases h with h | h | h | h | h <;> simp [h]
  · unfold max_limit limitsList
    simp only [DISPLAY_CATEGORIES, List.map_cons, List.map_nil]
    obtain ⟨h1, h2⟩ := le_foldl_max
        [quotaOf (rc "정치"), quotaOf (rc "사회"), quotaOf (rc "문화"),
         quotaOf (rc "세계"), quotaOf (rc "과학")] (quotaOf (rc "경제"))
    intro v hv
    simp only [List.mem_cons, List.not_mem_nil, or_false] at hv
    rcases hv with rfl | hv | hv | hv | hv | hv
    · exact h1
    all_goals exact h2 v (by simp [hv])

/-- Witness for C3 with a read-count function giving 7 reads per
category. -/
theorem c3_quota_rule_witness :
    "경제" ∈ DISPLAY_CATEGORIES
    ∧ ((limitsList (fun _ => 7)).lookup "경제" =
          some (if 10 ≤ (7 : Nat) then 6 else if 5 ≤ (7 : Nat) then 5 else 3)
        ∧ max_limit (fun _ => 7) ∈ (limitsList (fun _ => 7)).map Prod.snd
        ∧ ∀ v ∈ (limitsList (fun _ => 7)).map Prod.snd, v ≤ max_limit (fun _ => 7)) :=
  ⟨by decide, c3_quota_rule (fun _ => 7) "경제" (by decide)⟩

/-- Claim C4, counterexample to the claim as stated: an id with no
known prefix and a raw category that is neither an alias nor a
canonical label is NOT labeled `기타` (Other) — the raw category passes
through unchanged. -/
theorem c4_counterexample :
    label_case "xyz" (some "스포츠") = "스포츠" ∧ ("스포츠" : String) ≠ "기타" :=
  ⟨rfl, by decide⟩

/-- Claim C4, amended: classification is total with this precedence —
a known id prefix decides the label regardless of the stored category;
otherwise the alias table normalises known synonyms; otherwise a
canonical raw category passes through unchanged; otherwise ANY non-null
raw category passes through unchanged, and only a NULL category is
labeled `기타` (Other). -/
theorem c4_classification_precedence :
    (∀ id category lab, idPrefixLabel id = some lab → label_case id category = lab)
    ∧ (∀ id category, idPrefixLabel id = none → label_case id category = cat_norm category)
    ∧ (cat_norm (some "생활/문화") = "문화" ∧ cat_norm (some "IT/과학") = "과학"
       ∧ cat_norm (some "IT") = "과학" ∧ cat_norm (some "국제") = "세계")
    ∧ (∀ c, c ∈ DISPLAY_CATEGORIES → cat_norm (some c) = c)
    ∧ (∀ c, c ∉ ["문화", "생활/문화", "과학", "IT/과학", "IT", "국제", "세계", "경제", "정치", "사회"] →
        cat_norm (some c) = c)
    ∧ cat_norm none = "기타" := by
  refine ⟨?_, ?_, ⟨rfl, rfl, rfl, rfl⟩, ?_, ?_, rfl⟩
  · intro id category lab hpre
    unfold label_case
    rw [hpre]
  · intro id category hpre
    unfold label_case
    rw [hpre]
  · intro c hc
    fin_cases hc <;> rfl
  · intro c hc
    simp only [List.mem_cons, List.not_mem_nil, or_false, not_or] at hc
    obtain ⟨h1, h2, h3, h4, h5, h6, h7, h8, h9, h10⟩ := hc
    simp [cat_norm, h1, h2, h3, h4, h5, h6, h7, h8, h9, h10]

/-- Witness for the amended C4 theorem at concrete inputs. -/
theorem c4_classification_precedence_witness :
    (idPrefixLabel "ECO42" = some "경제" ∧ label_case "ECO42" (some "사회") = "경제")
    ∧ (idPrefixLabel "abc" = none ∧ label_case "abc" (some "경제") = cat_norm (some "경제"))
    ∧ ("경제" ∈ DISPLAY_CATEGORIES ∧ cat_norm (some "경제") = "경제")
    ∧ (("스포츠" : String) ∉
          ["문화", "생활/문화", "과학", "IT/과학", "IT", "국제", "세계", "경제", "정치", "사회"]
        ∧ cat_norm (some "스포츠") = "스포츠") :=
  ⟨⟨by decide, c4_classification_precedence.1 "ECO42" (some "사회") "경제" (by decide)⟩,
   ⟨by decide, c4_classification_precedence.2.1 "abc" (some "경제") (by decide)⟩,
   ⟨by decide, c4_classification_precedence.2.2.2.1 "경제" (by decide)⟩,
   ⟨by decide, c4_classification_precedence.2.2.2.2.1 "스포츠" (by decide)⟩⟩

/-- Claim C5, counterexample to the claim as stated: a recognised shape
whose array contains a bare number makes the element normalisation
(`dict(it)`) raise — normalization is not failure-free for every
payload. -/
theorem c5_counterexample :
    attach_attitudes_per_item (fun _ => none) (.jobj [("items", .jarr [.jnum 5])]) =
      .error "TypeError: element is not a mapping" := rfl

/-- Claim C5, amended: when no recognised shape is found the payload is
returned unchanged; when a target array is found and each of its
elements is a bare string id or a record whose discovered id value is
hashable, normalization succeeds and the result is the normalized array
written back at the discovered location; the write-back (`jsetField`)
leaves every sibling key's value untouched. -/
theorem c5_normalizer_contract :
    (∀ lk items, locate_array items = none →
        attach_attitudes_per_item lk items = .ok items)
    ∧ (∀ lk items loc, locate_array items = some loc →
        (∀ x ∈ locatedArr loc, safeElem x = true) →
        ∃ ys, attach_attitudes_per_item lk items = .ok (reassemble items loc ys))
    ∧ (∀ (fs : List (String × JVal)) k v k', k' ≠ k →
        (jsetField fs k v).lookup k' = fs.lookup k') := by
  refine ⟨?_, ?_, ?_⟩
  · intro lk items h
    unfold attach_attitudes_per_item
    rw [h]
  · intro lk items loc hloc hsafe
    obtain ⟨ys, hmap, hall⟩ := mapME_norm_ok (locatedArr loc) hsafe
    obtain ⟨zs, hinj⟩ := mapME_inject_ok (attitudeMap lk (collectIds ys)) ys hall
    refine ⟨zs, ?_⟩
    simp only [attach_attitudes_per_item, hloc, hmap, hinj]
  · intro fs k v k' hk
    unfold jsetField
    split
    · rw [lookup_map_keyed (fun key w => if key = k then v else w)]
      cases hl : fs.lookup k'
      · rfl
      · simp [hk]
    · exact lookup_append_not_last fs k k' v hk

/-- Witness for the amended C5 theorem at concrete payloads. -/
theorem c5_normalizer_contract_witness :
    (locate_array (.jnum 3) = none
      ∧ attach_attitudes_per_item (fun _ => none) (.jnum 3) = .ok (.jnum 3))
    ∧ (∃ ys, attach_attitudes_per_item
          (fun s => if s = "eco1" then some (.jstr "우호적", .jnum 80) else none)
          (.jobj [("related_topics", .jarr [.jstr "eco1"]), ("extra", .jnum 7)]) =
        .ok (reassemble
          (.jobj [("related_topics", .jarr [.jstr "eco1"]), ("extra", .jnum 7)])
          (.top "related_topics" [.jstr "eco1"]) ys))
    ∧ (("extra" : String) ≠ "related_topics"
      ∧ (jsetField [("related_topics", .jarr []), ("extra", .jnum 7)]
            "related_topics" .null).lookup "extra" =
          ([("related_topics", JVal.jarr []), ("extra", JVal.jnum 7)]).lookup "extra") :=
  ⟨⟨rfl, c5_normalizer_contract.1 (fun _ => none) (.jnum 3) rfl⟩,
   c5_normalizer_contract.2.1
     (fun s => if s = "eco1" then some (.jstr "우호적", .jnum 80) else none)
     (.jobj [("related_topics", .jarr [.jstr "eco1"]), ("extra", .jnum 7)])
     (.top "related_topics" [.jstr "eco1"]) rfl
     (by intro x hx; rcases List.mem_singleton.mp hx with rfl; rfl),
   ⟨by decide, c5_normalizer_contract.2.2
     [("related_topics", .jarr []), ("extra", .jnum 7)] "related_topics" .null "extra"
     (by decide)⟩⟩

/-- Claim C6, evaluation at the failing input: on a store with no such
article, both `GET /news/{id}` and `GET /news/{id}/complete` answer
HTTP 500 ("failed to load article: ...") because `get_article` raises
`KeyError` and the blanket `except Exception` converts it to 500; the
routers' 404 "article not found" branches are unreachable.  The claim
(and the spec) say NotFound should be surfaced — the code is the slip,
as its own dead 404 branch shows. -/
theorem c6_missing_article_yields_500 :
    get_news (fun _ => none) "missing0" =
      .httpError 500 "failed to load article: article not found"
    ∧ get_news_complete (fun _ => none) (fun _ => none) .null .null "missing0" =
        .httpError 500 "failed to load article: article not found" := ⟨rfl, rfl⟩

/-- Claim C7: every day in the snapshot window scores
`round(50 + sum of that day's parsed mood deltas)` — no clamping, and
no carry-over since the formula reads only that day's sum; rounding is
the identity on integer sums, so an integer delta total k scores
exactly 50 + k; in particular no events score today at exactly 50, and
one `+6` delta today scores 56. -/
theorem c7_mood_score_formula (events : List MoodEvent) (today : Int) (n : Nat) :
    (get_user_mood_snapshot events today n).days =
      (List.range 7).map (fun j => (today - 6 + (j : Int),
        pyRound ((BASELINE_STRESS : Rat) + daySum events (today - 6 + (j : Int)))))
    ∧ (∀ k : Int, pyRound ((BASELINE_STRESS : Rat) + (k : Rat)) = BASELINE_STRESS + k)
    ∧ (get_user_mood_snapshot [] today n).score = 50
    ∧ (get_user_mood_snapshot [{ day := today, event_type := "mood", delta := some "6" }]
          today n).score = 56 := by
  refine ⟨snapshot_days_eq events today n, ?_, ?_, ?_⟩
  · intro k
    have hc : ((BASELINE_STRESS : Rat) + (k : Rat)) = ((BASELINE_STRESS + k : Int) : Rat) := by
      push_cast
      ring
    rw [hc]
    unfold pyRound
    norm_num [Int.floor_intCast]
  · rw [snapshot_score_eq]
    rw [show daySum [] today = 0 from rfl]
    norm_num [pyRound, BASELINE_STRESS]
  · rw [snapshot_score_eq, daySum_single_six]
    norm_num [pyRound, BASELINE_STRESS]

/-- Claim C8: the caller-supplied window size is ignored — any two
window arguments produce the same snapshot, the returned days list has
exactly 7 entries, and those entries are the trailing 7 civil days
ending today. -/
theorem c8_days_ignored_seven_window (events : List MoodEvent) (today : Int)
    (d1 d2 : Nat) :
    get_user_mood_snapshot events today d1 = get_user_mood_snapshot events today d2
    ∧ (get_user_mood_snapshot events today d1).days.length = 7
    ∧ (get_user_mood_snapshot events today d1).days.map Prod.fst =
        [today - 6, today - 5, today - 4, today - 3, today - 2, today - 1, today] := by
  refine ⟨rfl, ?_, ?_⟩
  · rw [snapshot_days_eq]; rfl
  · rw [snapshot_days_eq]
    have h7 : List.range 7 = [0, 1, 2, 3, 4, 5, 6] := rfl
    simp only [h7, List.map_cons, List.map_nil]
    norm_num
    omega

/-- Claim C9, counterexample to the claim as stated: re-closing an
already-closed session (closed at 10 with dwell 10, reopened-at 0) at
time 100 succeeds but OVERWRITES the stored values — closed_at becomes
100 and dwell becomes 100, so they are not left unchanged. -/
theorem c9_counterexample :
    close_read [⟨1, 7, "eco1", some 0, some 10, some 10⟩] "eco1" 7 1 100 =
      ([⟨1, 7, "eco1", some 0, some 100, some 100⟩], 100)
    ∧ ([⟨1, 7, "eco1", some 0, some 100, some 100⟩] : List ReadRow) ≠
        [⟨1, 7, "eco1", some 0, some 10, some 10⟩] := ⟨rfl, by decide⟩

/-- Claim C9, amended: a read id that does not exist or does not match
the (user, article) pair is reported as NotFound (service returns -1,
router 404); closing a session that is already closed is accepted
without error (the close never fails once the row matches), but
closed_at is overwritten with the new time and dwell_seconds recomputed
as `max 0 (now - opened_at)` rather than left unchanged. -/
theorem c9_close_read_behaviour :
    (∀ (rows : List ReadRow) aid uid rid now,
       rows.find? (fun r => r.id = rid && r.user_id = uid && r.article_id = aid) = none →
       close_read rows aid uid rid now = (rows, -1)
       ∧ close_article rows aid uid rid now = .httpError 404 "read session not found")
    ∧ (∀ (rows : List ReadRow) row aid uid rid now,
       rows.find? (fun r => r.id = rid && r.user_id = uid && r.article_id = aid) = some row →
       (close_read rows aid uid rid now).2 = max 0 (now - row.opened_at.getD now)
       ∧ 0 ≤ (close_read rows aid uid rid now).2
       ∧ close_article rows aid uid rid now =
           .ok (.jobj [("ok", .jbool true), ("article_id", .jstr aid),
                       ("dwell_seconds", .jnum (max 0 (now - row.opened_at.getD now)))])
       ∧ (close_read rows aid uid rid now).1 = rows.map (fun r =>
            if r.id = row.id then
              { r with closed_at := some now,
                       dwell_seconds := some (max 0 (now - row.opened_at.getD now)) }
            else r)) := by
  constructor
  · intro rows aid uid rid now h
    constructor
    · unfold close_read; rw [h]
    · unfold close_article close_read
      rw [h]
      norm_num
  · intro rows row aid uid rid now h
    have hd : ¬ ((max 0 (now - row.opened_at.getD now)) < 0) :=
      not_lt.mpr (le_max_left _ _)
    refine ⟨?_, ?_, ?_, ?_⟩
    · unfold close_read; rw [h]
    · unfold close_read; rw [h]; exact le_max_left 0 _
    · unfold close_article close_read
      rw [h]
      simp [hd]
    · unfold close_read; rw [h]

/-- Witness for the amended C9 theorem: the empty table 404s, and the
already-closed row is re-closed without error. -/
theorem c9_close_read_behaviour_witness :
    (([] : List ReadRow).find?
        (fun r => r.id = 1 && r.user_id = 7 && r.article_id = "eco1") = none
      ∧ (close_read [] "eco1" 7 1 100 = ([], -1)
        ∧ close_article [] "eco1" 7 1 100 = .httpError 404 "read session not found"))
    ∧ (([⟨1, 7, "eco1", some 0, some 10, some 10⟩] : List ReadRow).find?
        (fun r => r.id = 1 && r.user_id = 7 && r.article_id = "eco1") =
          some ⟨1, 7, "eco1", some 0, some 10, some 10⟩
      ∧ ((close_read [⟨1, 7, "eco1", some 0, some 10, some 10⟩] "eco1" 7 1 100).2 =
            max 0 (100 - (some (0 : Int)).getD 100)
        ∧ 0 ≤ (close_read [⟨1, 7, "eco1", some 0, some 10, some 10⟩] "eco1" 7 1 100).2
        ∧ close_article [⟨1, 7, "eco1", some 0, some 10, some 10⟩] "eco1" 7 1 100 =
            .ok (.jobj [("ok", .jbool true), ("article_id", .jstr "eco1"),
                        ("dwell_seconds", .jnum (max 0 (100 - (some (0 : Int)).getD 100)))])
        ∧ (close_read [⟨1, 7, "eco1", some 0, some 10, some 10⟩] "eco1" 7 1 100).1 =
            ([⟨1, 7, "eco1", some 0, some 10, some 10⟩] : List ReadRow).map (fun r =>
              if r.id = 1 then
                { r with closed_at := some 100,
                         dwell_seconds := some (max 0 (100 - (some (0 : Int)).getD 100)) }
              else r))) :=
  ⟨⟨rfl, c9_close_read_behaviour.1 [] "eco1" 7 1 100 rfl⟩,
   ⟨rfl, c9_close_read_behaviour.2 [⟨1, 7, "eco1", some 0, some 10, some 10⟩]
      ⟨1, 7, "eco1", some 0, some 10, some 10⟩ "eco1" 7 1 100 rfl⟩⟩

/-- Claim C10: an event whose delta text is absent or fails the numeric
regex contributes 0 — a day's sum equals the sum over only the events
whose delta parses — and the aggregation completes: a snapshot over a
missing delta, a junk delta and a `4` scores 54 today. -/
theorem c10_junk_deltas_zero (events : List MoodEvent) (d : Int) :
    daySum events d = daySum (events.filter parseableDelta) d
    ∧ (∀ t, numericShape t = false → deltaContribution (some t) = 0)
    ∧ deltaContribution none = 0
    ∧ (get_user_mood_snapshot
        [{ day := 0, event_type := "mood", delta := none },
         { day := 0, event_type := "mood", delta := some "abc" },
         { day := 0, event_type := "mood", delta := some "4" }] 0 7).score = 54 := by
  refine ⟨?_, ?_, rfl, ?_⟩
  · refine sum_filter_zero _ _ parseableDelta ?_ events
    intro x hx
    unfold parseableDelta at hx
    cases hxd : x.delta with
    | none => simp [deltaContribution]
    | some t =>
      rw [hxd] at hx
      have hx' : numericShape t = false := hx
      simp [deltaContribution, hx']
  · intro t ht
    simp [deltaContribution, ht]
  · rw [snapshot_score_eq]
    rw [show daySum
        [{ day := 0, event_type := "mood", delta := none },
         { day := 0, event_type := "mood", delta := some "abc" },
         { day := 0, event_type := "mood", delta := some "4" }] 0 = 4 by
      simp [daySum]
      rw [show deltaContribution none = 0 from rfl,
          show deltaContribution (some "abc") = 0 from rfl,
          show deltaContribution (some "4") = 4 from rfl]
      norm_num]
    norm_num [pyRound, BASELINE_STRESS]

/-- Witness for C10 (it has a regex-failure hypothesis): applied at the
junk delta text "abc". -/
theorem c10_junk_deltas_zero_witness :
    daySum [] 0 = daySum (([] : List MoodEvent).filter parseableDelta) 0
    ∧ (numericShape "abc" = false ∧ deltaContribution (some "abc") = 0) :=
  ⟨(c10_junk_deltas_zero [] 0).1,
   ⟨by decide, (c10_junk_deltas_zero [] 0).2.1 "abc" (by decide)⟩⟩

end NewsClean
